import Mathlib

/-!
Verification of the ustore Arrow Flight server (`src/flight_server.cpp`,
`include/ustore/arrow.h`) against its natural-language specification.

The development shallowly embeds the session manager (`sessions_t`), the URI
parameter parser (`param_value`), the id parsers (`parse_u64_hex` /
`parse_txn_id`) and the Arrow interop helpers (`ustore_to_arrow_schema`,
`ustore_to_arrow_column`, `ustore_to_arrow_list`) as executable Lean
functions, and proves or refutes the specification's claims about them.

Conventions of the embedding:
* C++ `std::vector` used as a stack is a `List` whose head is the vector's
  back (the push/pop end).
* `std::unordered_map` is an association list with unique keys; its
  iteration order is the list order.  `erase` removes the key,
  `insert_or_assign` replaces in place or appends.
* Machine integers are `Nat`/`Int`; where C++ performs a signed-to-unsigned
  conversion (the `int64 < size_t` comparison in `sessions_t::pop`) the
  conversion is written explicitly as a modulus by `2 ^ 64`.
* Timestamps (`sys_time_t`) are integer milliseconds.
* Opaque engine handles (`ustore_transaction_t`, `ustore_arena_t`) are `Nat`.
-/

/-- Embedding of `running_txn_t` (flight_server.cpp:229-234): an engine
transaction handle, an arena handle, the `last_access` timestamp in
milliseconds and the `executing` flag. -/
structure RunningTxn where
  txn : Nat
  arena : Nat
  exec : Bool
  last : Int
  deriving DecidableEq, Repr

/-- Embedding of the private state of `sessions_t`
(flight_server.cpp:263-272): the two free stacks and the session map
`client_to_txn_`.  Session ids are collapsed to a single `Nat` since only
equality on them matters. -/
structure SessState where
  freeTxns : List Nat
  freeArenas : List Nat
  sessMap : List (Nat × RunningTxn)
  deriving DecidableEq, Repr

/-- Error outcomes of the session manager, one per `log_error_m` call site:
`duplicate` is "Such transaction is already running" (request_txn),
`capacity` is "Too many concurrent sessions" (pop), `notFound` is
"Transaction was terminated, start a new one" (continue_txn on an absent
id), `conflict` is "Transaction can't be modified concurrently."
(continue_txn on an executing session), `engine` is a failing engine call. -/
inductive SessErr where
  | duplicate
  | capacity
  | notFound
  | conflict
  | engine
  deriving DecidableEq, Repr

/-- Lookup in the session map (`client_to_txn_.find`). -/
def lookupSess : List (Nat × RunningTxn) → Nat → Option RunningTxn
  | [], _ => none
  | kv :: rest, id => if kv.1 = id then some kv.2 else lookupSess rest id

/-- Erasure from the session map (`client_to_txn_.erase`). -/
def eraseSess : List (Nat × RunningTxn) → Nat → List (Nat × RunningTxn)
  | [], _ => []
  | kv :: rest, id =>
    if kv.1 = id then eraseSess rest id else kv :: eraseSess rest id

/-- In-place value replacement for an existing key of the session map. -/
def updateSess : List (Nat × RunningTxn) → Nat → RunningTxn → List (Nat × RunningTxn)
  | [], _, _ => []
  | kv :: rest, id, r =>
    (if kv.1 = id then (kv.1, r) else kv) :: updateSess rest id r

/-- Embedding of `client_to_txn_.insert_or_assign`: replace in place when the
key exists, append otherwise. -/
def insertOrAssign (m : List (Nat × RunningTxn)) (id : Nat) (r : RunningTxn) :
    List (Nat × RunningTxn) :=
  if (lookupSess m id).isSome then updateSess m id r else m ++ [(id, r)]

/-- The comparator passed to `std::min_element` in `sessions_t::pop`
(flight_server.cpp:276-278): `left.second.last_access <
right.second.last_access && !left.second.executing`. -/
def popCompare (a b : RunningTxn) : Bool :=
  (a.last < b.last) && (!a.exec)

/-- The accumulation loop of `std::min_element`: the current best is replaced
by a later element `x` exactly when `popCompare x best` holds. -/
def minElemLoop (best : Nat × RunningTxn) : List (Nat × RunningTxn) → Nat × RunningTxn
  | [] => best
  | x :: rest => minElemLoop (if popCompare x.2 best.2 then x else best) rest

/-- `std::min_element` over the session map in iteration order; `none` on an
empty map (C++ returns the `end()` iterator). -/
def minElemSess : List (Nat × RunningTxn) → Option (Nat × RunningTxn)
  | [] => none
  | x :: rest => some (minElemLoop x rest)

/-- The idle timeout `milliseconds_timeout` (flight_server.cpp:272), a
`std::size_t` defaulting to 30'000 ms. -/
def millisecondsTimeout : Nat := 30000

/-- The C++ conversion of a signed 64-bit value to `unsigned long long`,
performed implicitly by the comparison `age.count() < milliseconds_timeout`
in `sessions_t::pop` (int64 operand versus size_t operand). -/
def toU64 (i : Int) : Int := i.emod (2 ^ 64)

/-- Embedding of `sessions_t::pop` (flight_server.cpp:274-290).  The victim
is chosen by `min_element` with `popCompare`; its "age" is computed as
`last_access - now()` (note the reversed subtraction in the source) and
compared, after the signed-to-unsigned conversion, against the timeout.  On
an empty map the C++ dereferences `end()` (undefined behaviour); this
embedding totalises that case as the same capacity failure. -/
def popEvict (now : Int) (s : SessState) : Except SessErr RunningTxn × SessState :=
  match minElemSess s.sessMap with
  | none => (.error .capacity, s)
  | some (id, r) =>
    if toU64 (r.last - now) < (millisecondsTimeout : Int) || r.exec then
      (.error .capacity, s)
    else
      (.ok { r with exec := false }, { s with sessMap := eraseSess s.sessMap id })

/-- Embedding of `sessions_t::request_txn` (flight_server.cpp:333-361). -/
def requestTxn (id : Nat) (now : Int) (s : SessState) :
    Except SessErr RunningTxn × SessState :=
  if (lookupSess s.sessMap id).isSome then (.error .duplicate, s)
  else if s.freeTxns.isEmpty || s.freeArenas.isEmpty then
    match popEvict now s with
    | (.error e, s1) => (.error e, s1)
    | (.ok r, s1) => (.ok { r with exec := true, last := now }, s1)
  else
    match s.freeTxns, s.freeArenas with
    | t :: ts, a :: arenasRest =>
      (.ok { txn := t, arena := a, exec := true, last := now },
       { s with freeTxns := ts, freeArenas := arenasRest })
    | _, _ => (.error .capacity, s)

/-- Embedding of `sessions_t::continue_txn` (flight_server.cpp:310-331). -/
def continueTxn (id : Nat) (now : Int) (s : SessState) :
    Except SessErr RunningTxn × SessState :=
  match lookupSess s.sessMap id with
  | none => (.error .notFound, s)
  | some r =>
    if r.exec then (.error .conflict, s)
    else
      let r2 := { r with exec := true, last := now }
      (.ok r2, { s with sessMap := updateSess s.sessMap id r2 })

/-- Embedding of `sessions_t::hold_txn` / `sessions_t::submit`
(flight_server.cpp:292-295, 363-366): the stored record always has
`executing` forced to `false` before `insert_or_assign`. -/
def holdTxn (id : Nat) (r : RunningTxn) (s : SessState) : SessState :=
  { s with sessMap := insertOrAssign s.sessMap id { r with exec := false } }

/-- Embedding of `sessions_t::release_txn(session_id_t)`
(flight_server.cpp:374-383): a no-op when the id is absent; otherwise the
mapped record's handles are pushed onto the free stacks and the entry is
erased. -/
def releaseTxnById (id : Nat) (s : SessState) : SessState :=
  match lookupSess s.sessMap id with
  | none => s
  | some r =>
    { s with
      freeArenas := r.arena :: s.freeArenas,
      freeTxns := r.txn :: s.freeTxns,
      sessMap := eraseSess s.sessMap id }

/-- Embedding of the `txn_commit` branch of `UStoreService::DoAction`
(flight_server.cpp:691-716): `continue_txn`, then the engine commit (its
success is the `engineOk` parameter), then `release_txn(session_id)` on
every path after a successful continue, and also on the continue-failure
path. -/
def txnCommitAction (id : Nat) (now : Int) (engineOk : Bool) (s : SessState) :
    Except SessErr Unit × SessState :=
  match continueTxn id now s with
  | (.error e, s1) => (.error e, releaseTxnById id s1)
  | (.ok _, s1) =>
    if engineOk then (.ok (), releaseTxnById id s1)
    else (.error .engine, releaseTxnById id s1)

/-! ### Association-list lemmas for the session map -/

theorem lookupSess_updateSess (m : List (Nat × RunningTxn)) (id : Nat) (r : RunningTxn) :
    lookupSess (updateSess m id r) id = (lookupSess m id).map (fun _ => r) := by
  induction m with
  | nil => rfl
  | cons kv rest ih =>
    by_cases h : kv.1 = id
    · simp [updateSess, lookupSess, h]
    · simp [updateSess, lookupSess, h, ih]

theorem lookupSess_eraseSess (m : List (Nat × RunningTxn)) (id : Nat) :
    lookupSess (eraseSess m id) id = none := by
  induction m with
  | nil => rfl
  | cons kv rest ih =>
    by_cases h : kv.1 = id
    · simp [eraseSess, h, ih]
    · simp [eraseSess, lookupSess, h, ih]

theorem lookupSess_append_none (m l : List (Nat × RunningTxn)) (id : Nat)
    (h : lookupSess m id = none) : lookupSess (m ++ l) id = lookupSess l id := by
  induction m with
  | nil => rfl
  | cons kv rest ih =>
    by_cases hk : kv.1 = id
    · simp [lookupSess, hk] at h
    · simp only [lookupSess, if_neg hk, List.cons_append] at h ⊢
      exact ih h

theorem lookupSess_insertOrAssign (m : List (Nat × RunningTxn)) (id : Nat) (r : RunningTxn) :
    lookupSess (insertOrAssign m id r) id = some r := by
  unfold insertOrAssign
  by_cases h : (lookupSess m id).isSome
  · obtain ⟨v, hv⟩ := Option.isSome_iff_exists.mp h
    simp [h, lookupSess_updateSess, hv]
  · rw [if_neg h]
    have hm : lookupSess m id = none := Option.not_isSome_iff_eq_none.mp h
    rw [lookupSess_append_none _ _ _ hm]
    simp [lookupSess]

/-! ### Behaviour of `continue_txn`, case by case -/

theorem continueTxn_none (s : SessState) (id : Nat) (now : Int)
    (h : lookupSess s.sessMap id = none) :
    continueTxn id now s = (.error .notFound, s) := by
  simp [continueTxn, h]

theorem continueTxn_executing (s : SessState) (id : Nat) (now : Int) (r : RunningTxn)
    (h : lookupSess s.sessMap id = some r) (hx : r.exec = true) :
    continueTxn id now s = (.error .conflict, s) := by
  simp [continueTxn, h, hx]

theorem continueTxn_ok (s : SessState) (id : Nat) (now : Int) (r : RunningTxn)
    (h : lookupSess s.sessMap id = some r) (hx : r.exec = false) :
    continueTxn id now s =
      (.ok { r with exec := true, last := now },
       { s with sessMap := updateSess s.sessMap id { r with exec := true, last := now } }) := by
  simp [continueTxn, h, hx]

/-! ### Claim C1: the idle-eviction policy -/

/-- A pool state with capacity 1: both free stacks are empty and the sole
session (id 5) is idle (`executing = false`) with `last_access` 1000 ms in
the past at the time of the call, far younger than the 30'000 ms timeout. -/
def c1IdleState : SessState :=
  { freeTxns := [],
    freeArenas := [],
    sessMap := [(5, { txn := 1, arena := 2, exec := false, last := 0 })] }

/-- C1.  The claim says this `request_txn` must fail with capacity-exhausted
and leave the map unchanged, because the only idle session is younger than
the 30-second timeout.  The code instead evicts it and succeeds: `pop`
computes the age as `last_access - now()` (negative), and the comparison
against the `size_t` timeout converts that negative count to a huge
unsigned value, so every session that is at least one millisecond old
passes the age gate.  Evaluating the embedding at `now = 1000` ms shows the
1-second-old idle session being surrendered and the map emptied. -/
theorem c1_young_idle_session_evicted :
    requestTxn 9 1000 c1IdleState =
      (.ok { txn := 1, arena := 2, exec := true, last := 1000 },
       { freeTxns := [], freeArenas := [], sessMap := [] }) := by
  rfl

/-! ### Claim C2: the pool-size invariant -/

/-- A pool state as built by `sessions_t::sessions_t(db, 1)`: capacity 1,
one (null) transaction handle and one (null) arena handle on the free
stacks, empty session map.  Handles are numbered for readability. -/
def c2Start : SessState := { freeTxns := [10], freeArenas := [20], sessMap := [] }

/-- The state after `request_txn(7)` followed by the matching
`release_txn(7)` — exactly the call sequence of the `txn_begin` handler
when `ustore_transaction_init` fails (flight_server.cpp:668-682). -/
def c2End : SessState := releaseTxnById 7 (requestTxn 7 0 c2Start).2

/-- C2.  The claim says that after any sequence of
`request_txn`/`hold_txn`/`continue_txn`/`release_txn` calls (each
outstanding `request_txn` record being followed by its matching `hold_txn`
or `release_txn`) the free-stack sizes plus the session-map size equal the
capacity.  With capacity 1, the sequence `request_txn(7); release_txn(7)`
leaves both sums at 0: `request_txn` pops both stacks and hands the record
to the caller, but `release_txn(session_id_t)` looks the id up in the map,
finds nothing and returns, so the borrowed handles are returned to neither
the stacks nor the map.  (The `release_txn(running_txn_t)` overload that
would push them back is never called anywhere in the source.) -/
theorem c2_request_release_leaks_handles :
    (requestTxn 7 0 c2Start).1 =
      .ok { txn := 10, arena := 20, exec := true, last := 0 } ∧
    c2End.freeTxns.length + c2End.sessMap.length = 0 ∧
    c2End.freeArenas.length + c2End.sessMap.length = 0 := by
  exact ⟨rfl, rfl, rfl⟩

/-! ### Claim C4: `continue_txn` case analysis -/

/-- C4.  `continue_txn` fails with not-found ("Transaction was terminated")
when the id is absent, fails with conflict ("can't be modified
concurrently") when the mapped record is executing, and otherwise marks the
record executing, refreshes `last_access` to the current time and returns
it; in both failure cases the whole state — in particular the session map —
is returned unchanged. -/
theorem c4_continue_txn_cases :
    ∀ (s : SessState) (id : Nat) (now : Int),
      (lookupSess s.sessMap id = none →
        continueTxn id now s = (.error .notFound, s)) ∧
      (∀ r : RunningTxn, lookupSess s.sessMap id = some r → r.exec = true →
        continueTxn id now s = (.error .conflict, s)) ∧
      (∀ r : RunningTxn, lookupSess s.sessMap id = some r → r.exec = false →
        continueTxn id now s =
          (.ok { r with exec := true, last := now },
           { s with
             sessMap := updateSess s.sessMap id { r with exec := true, last := now } })) := by
  intro s id now
  exact ⟨continueTxn_none s id now,
         fun r h hx => continueTxn_executing s id now r h hx,
         fun r h hx => continueTxn_ok s id now r h hx⟩

/-- A concrete state for exercising `c4_continue_txn_cases`: session 3 is
present and currently executing. -/
def c4ExecState : SessState :=
  { freeTxns := [],
    freeArenas := [],
    sessMap := [(3, { txn := 4, arena := 5, exec := true, last := 7 })] }

/-- Witness for C4: at `c4ExecState` the conflict branch fires and the state
is unchanged. -/
theorem c4_continue_txn_cases_witness :
    continueTxn 3 100 c4ExecState = (.error .conflict, c4ExecState) :=
  (c4_continue_txn_cases c4ExecState 3 100).2.1
    { txn := 4, arena := 5, exec := true, last := 7 } rfl rfl

/-! ### Claim C5: `txn_commit` always releases the session -/

/-- C5.  For a `txn_commit` on an existing, non-executing session, whatever
the engine commit returns (`engineOk` true or false), the session is erased
from the map and its transaction and arena handles are pushed onto the free
stacks. -/
theorem c5_txn_commit_always_releases :
    ∀ (s : SessState) (id : Nat) (now : Int) (engineOk : Bool) (r : RunningTxn),
      lookupSess s.sessMap id = some r → r.exec = false →
      lookupSess (txnCommitAction id now engineOk s).2.sessMap id = none ∧
      (txnCommitAction id now engineOk s).2.freeTxns = r.txn :: s.freeTxns ∧
      (txnCommitAction id now engineOk s).2.freeArenas = r.arena :: s.freeArenas := by
  intro s id now engineOk r h hx
  have h1 := continueTxn_ok s id now r h hx
  have h2 : lookupSess (updateSess s.sessMap id { r with exec := true, last := now }) id =
      some { r with exec := true, last := now } := by
    rw [lookupSess_updateSess, h]
    rfl
  cases engineOk <;>
    simp [txnCommitAction, h1, releaseTxnById, h2, lookupSess_eraseSess]

/-- A concrete state for exercising `c5_txn_commit_always_releases`:
session 2 is present and idle, and the free stacks hold one handle each. -/
def c5IdleState : SessState :=
  { freeTxns := [8],
    freeArenas := [9],
    sessMap := [(2, { txn := 3, arena := 4, exec := false, last := 0 })] }

/-- Witness for C5: a failing engine commit (`engineOk = false`) on
`c5IdleState` still erases session 2 and pushes its handles back. -/
theorem c5_txn_commit_always_releases_witness :
    lookupSess (txnCommitAction 2 50 false c5IdleState).2.sessMap 2 = none ∧
    (txnCommitAction 2 50 false c5IdleState).2.freeTxns = 3 :: [8] ∧
    (txnCommitAction 2 50 false c5IdleState).2.freeArenas = 4 :: [9] :=
  c5_txn_commit_always_releases c5IdleState 2 50 false
    { txn := 3, arena := 4, exec := false, last := 0 } rfl rfl

/-! ### Claim C10: `hold_txn` stores only non-executing records -/

/-- C10.  Every `hold_txn` call — including the one made by the
`session_lock_t` destructor, which passes a record whose `executing` flag is
still true — stores a record whose `executing` flag is false, with the
transaction and arena handles of the record passed in: `submit` overwrites
the flag before `insert_or_assign`. -/
theorem c10_hold_txn_stores_non_executing :
    ∀ (s : SessState) (id : Nat) (r : RunningTxn),
      ∃ stored : RunningTxn,
        lookupSess (holdTxn id r s).sessMap id = some stored ∧
        stored.exec = false ∧ stored.txn = r.txn ∧ stored.arena = r.arena := by
  intro s id r
  exact ⟨{ r with exec := false }, lookupSess_insertOrAssign _ _ _, rfl, rfl, rfl⟩

/-! ### Embedding of the URI parameter parser `param_value`
(flight_server.cpp:51-84).  Strings are lists of characters. -/

/-- One candidate position of `std::search`: the parameter name occurs in
the query string at offset `i`. -/
def matchesAt (q pat : List Char) (i : Nat) : Bool :=
  (q.drop i).take pat.length == pat

/-- Embedding of `std::search(key_begin, end, name.begin, name.end)`: the
first offset `i ≥ s` at which the name occurs (offset `q.length` plays the
role of the `end()` iterator and can only host the empty name). -/
def findOcc (q pat : List Char) (s : Nat) : Option Nat :=
  ((List.range (q.length + 1)).filter (fun j => decide (s ≤ j) && matchesAt q pat j)).head?

/-- The `do`/`while` loop of `param_value`, with an explicit fuel argument
(`paramValue` supplies enough fuel for the loop to run to its natural
exit, since the search offset grows by at least one per iteration).
Branches, in source order: a match ending exactly at the end of the string
returns the empty value (no look at the preceding character); a preceding
character other than `?`, `&`, `/` skips ahead by one; a following `&`
returns the empty value; a following `=` returns the value up to the next
`&`; any other following character skips ahead by one. -/
def pvLoop (q pat : List Char) : Nat → Nat → Option (List Char)
  | 0, _ => none
  | fuel + 1, s =>
    match findOcc q pat s with
    | none => none
    | some i =>
      if i + pat.length = q.length then some []
      else if q.getD (i - 1) ' ' ≠ '?' ∧ q.getD (i - 1) ' ' ≠ '&' ∧ q.getD (i - 1) ' ' ≠ '/' then
        pvLoop q pat fuel (i + 1)
      else if q.getD (i + pat.length) ' ' = '&' then some []
      else if q.getD (i + pat.length) ' ' = '=' then
        some ((q.drop (i + pat.length + 1)).takeWhile (fun c => c != '&'))
      else pvLoop q pat fuel (i + 1)

/-- Embedding of `param_value(query_params, param_name)`. -/
def paramValue (q pat : List Char) : Option (List Char) :=
  pvLoop q pat (q.length + 2) 0

theorem findOcc_spec (q pat : List Char) (s i : Nat) (h : findOcc q pat s = some i) :
    s ≤ i ∧ i ≤ q.length ∧ matchesAt q pat i = true := by
  unfold findOcc at h
  have hmem : i ∈ (List.range (q.length + 1)).filter
      (fun j => decide (s ≤ j) && matchesAt q pat j) := by
    cases hl : (List.range (q.length + 1)).filter
        (fun j => decide (s ≤ j) && matchesAt q pat j) with
    | nil => rw [hl] at h; cases h
    | cons x xs =>
      rw [hl, List.head?_cons] at h
      cases h
      exact List.mem_cons_self _ _
  have hq := List.mem_filter.mp hmem
  have h1 := List.mem_range.mp hq.1
  have h2 : decide (s ≤ i) = true ∧ matchesAt q pat i = true := by
    simpa using hq.2
  exact ⟨of_decide_eq_true h2.1, Nat.lt_succ_iff.mp h1, h2.2⟩

theorem pvLoop_succ_none (q pat : List Char) (fuel s : Nat)
    (hf : findOcc q pat s = none) : pvLoop q pat (fuel + 1) s = none := by
  rw [pvLoop, hf]

theorem pvLoop_succ_some (q pat : List Char) (fuel s i : Nat)
    (hf : findOcc q pat s = some i) :
    pvLoop q pat (fuel + 1) s =
      (if i + pat.length = q.length then some []
       else if q.getD (i - 1) ' ' ≠ '?' ∧ q.getD (i - 1) ' ' ≠ '&' ∧
           q.getD (i - 1) ' ' ≠ '/' then
         pvLoop q pat fuel (i + 1)
       else if q.getD (i + pat.length) ' ' = '&' then some []
       else if q.getD (i + pat.length) ' ' = '=' then
         some ((q.drop (i + pat.length + 1)).takeWhile (fun c => c != '&'))
       else pvLoop q pat fuel (i + 1)) := by
  rw [pvLoop, hf]

theorem matchesAt_bound (q pat : List Char) (i : Nat) (hi : i ≤ q.length)
    (h : matchesAt q pat i = true) : i + pat.length ≤ q.length := by
  unfold matchesAt at h
  have heq : (q.drop i).take pat.length = pat := by
    exact eq_of_beq h
  have hlen := congrArg List.length heq
  simp only [List.length_take, List.length_drop] at hlen
  have := min_eq_left_iff.mp hlen
  omega

/-- Soundness of the loop: any returned value comes from an occurrence of
the name, and carries the branch conditions the source checked on the way
out.  A non-empty value can only come from the `=` branch, for which the
preceding-character guard was checked; the empty value comes either from a
match flush with the end of the string (no guard on the preceding
character) or from a following `&` (guard checked). -/
theorem pvLoop_sound (q pat : List Char) :
    ∀ (fuel s : Nat) (v : List Char), pvLoop q pat fuel s = some v →
    ∃ i : Nat, matchesAt q pat i = true ∧
      ((i + pat.length = q.length ∧ v = []) ∨
       (i + pat.length < q.length ∧
        (q.getD (i - 1) ' ' = '?' ∨ q.getD (i - 1) ' ' = '&' ∨ q.getD (i - 1) ' ' = '/') ∧
        ((q.getD (i + pat.length) ' ' = '&' ∧ v = []) ∨
         (q.getD (i + pat.length) ' ' = '=' ∧
          v = (q.drop (i + pat.length + 1)).takeWhile (fun c => c != '&'))))) := by
  intro fuel
  induction fuel with
  | zero =>
    intro s v h
    simp [pvLoop] at h
  | succ fuel ih =>
    intro s v h
    cases hf : findOcc q pat s with
    | none => rw [pvLoop_succ_none q pat fuel s hf] at h; cases h
    | some i =>
      rw [pvLoop_succ_some q pat fuel s i hf] at h
      obtain ⟨hsi, hiq, hm⟩ := findOcc_spec q pat s i hf
      by_cases hsuf : i + pat.length = q.length
      · rw [if_pos hsuf] at h
        cases h
        exact ⟨i, hm, .inl ⟨hsuf, rfl⟩⟩
      · rw [if_neg hsuf] at h
        have hlt : i + pat.length < q.length :=
          lt_of_le_of_ne (matchesAt_bound q pat i hiq hm) hsuf
        by_cases hp : q.getD (i - 1) ' ' ≠ '?' ∧ q.getD (i - 1) ' ' ≠ '&' ∧ q.getD (i - 1) ' ' ≠ '/'
        · rw [if_pos hp] at h
          exact ih (i + 1) v h
        · rw [if_neg hp] at h
          have hprev : q.getD (i - 1) ' ' = '?' ∨ q.getD (i - 1) ' ' = '&' ∨
              q.getD (i - 1) ' ' = '/' := by
            by_contra hc
            push_neg at hc
            exact hp ⟨hc.1, hc.2.1, hc.2.2⟩
          by_cases hamp : q.getD (i + pat.length) ' ' = '&'
          · rw [if_pos hamp] at h
            cases h
            exact ⟨i, hm, .inr ⟨hlt, hprev, .inl ⟨hamp, rfl⟩⟩⟩
          · rw [if_neg hamp] at h
            by_cases heq : q.getD (i + pat.length) ' ' = '='
            · rw [if_pos heq] at h
              cases h
              exact ⟨i, hm, .inr ⟨hlt, hprev, .inr ⟨heq, rfl⟩⟩⟩
            · rw [if_neg heq] at h
              exact ih (i + 1) v h

/-! ### Claim C3: the parameter parser accepts and rejects the right keys -/

/-- The query string of the claim's concrete instance, `?a=1&bc=2`. -/
def qClaim : List Char := ['?', 'a', '=', '1', '&', 'b', 'c', '=', '2']

/-- The key `a`. -/
def patA : List Char := ['a']

/-- The key `b`. -/
def patB : List Char := ['b']

/-- The key `bc`. -/
def patBC : List Char := ['b', 'c']

/-- A query string, `?ab`, in which the key `b` occurs only as the suffix of
the larger key `ab`. -/
def qSuffix : List Char := ['?', 'a', 'b']

/-- A query string, `?a/x`, in which the key `a` is followed by `/`. -/
def qSlash : List Char := ['?', 'a', '/', 'x']

/-- C3 counterexample.  The claim says `param_value` returns a match only
when the character preceding the matched key is `?`, `&` or `/`.  In
`?ab` the sole occurrence of the key `b` is at offset 2 and is preceded by
`a`, so under the claim there must be no match — but the source's
`is_suffix` early return (flight_server.cpp:58-60) fires before the
preceding-character check and yields the empty value. -/
theorem c3_suffix_match_skips_preceding_check :
    paramValue qSuffix patB = some [] ∧
    (List.range (qSuffix.length + 1)).filter (fun i => matchesAt qSuffix patB i) = [2] ∧
    qSuffix.getD 1 ' ' = 'a' ∧
    ¬('a' = '?' ∨ 'a' = '&' ∨ 'a' = '/') := by
  refine ⟨by decide, by decide, by decide, by decide⟩

/-- C3 as amended.  Every value returned by `param_value` comes from an
occurrence of the key which either (a) ends exactly at the end of the
query string — in which case the preceding character is *not* inspected and
the empty value is returned — or (b) is preceded by `?`, `&` or `/` and
followed by `&` (empty value) or by `=` (value running to the next `&` or
the end).  A following `/` does not delimit a key.  In particular, on
`?a=1&bc=2` the key `a` yields `1`, `bc` yields `2` and `b` yields no
match; and on `?a/x` the key `a` yields no match. -/
theorem c3_param_value_amended :
    (∀ (q pat v : List Char), paramValue q pat = some v →
      ∃ i : Nat, matchesAt q pat i = true ∧
        ((i + pat.length = q.length ∧ v = []) ∨
         (i + pat.length < q.length ∧
          (q.getD (i - 1) ' ' = '?' ∨ q.getD (i - 1) ' ' = '&' ∨ q.getD (i - 1) ' ' = '/') ∧
          ((q.getD (i + pat.length) ' ' = '&' ∧ v = []) ∨
           (q.getD (i + pat.length) ' ' = '=' ∧
            v = (q.drop (i + pat.length + 1)).takeWhile (fun c => c != '&')))))) ∧
    paramValue qClaim patA = some ['1'] ∧
    paramValue qClaim patBC = some ['2'] ∧
    paramValue qClaim patB = none ∧
    paramValue qSlash patA = none := by
  refine ⟨?_, by decide, by decide, by decide, by decide⟩
  intro q pat v h
  exact pvLoop_sound q pat (q.length + 2) 0 v h

/-- Witness for C3: the soundness part of `c3_param_value_amended` applied
to the concrete run `param_value("?a=1&bc=2", "a") = "1"`. -/
theorem c3_param_value_amended_witness :
    ∃ i : Nat, matchesAt qClaim patA i = true ∧
      ((i + patA.length = qClaim.length ∧ ['1'] = ([] : List Char)) ∨
       (i + patA.length < qClaim.length ∧
        (qClaim.getD (i - 1) ' ' = '?' ∨ qClaim.getD (i - 1) ' ' = '&' ∨
         qClaim.getD (i - 1) ' ' = '/') ∧
        ((qClaim.getD (i + patA.length) ' ' = '&' ∧ ['1'] = ([] : List Char)) ∨
         (qClaim.getD (i + patA.length) ' ' = '=' ∧
          ['1'] = (qClaim.drop (i + patA.length + 1)).takeWhile (fun c => c != '&'))))) :=
  c3_param_value_amended.1 qClaim patA ['1'] (by decide)

/-! ### Embedding of the id parsers (flight_server.cpp:178-198) and the txn
part of `session_params` (flight_server.cpp:441-471) -/

/-- A base-16 digit as accepted by `strtoull`. -/
def isHexDigitChar (c : Char) : Bool :=
  ('0' ≤ c && c ≤ '9') || ('a' ≤ c && c ≤ 'f') || ('A' ≤ c && c ≤ 'F')

/-- Numeric value of a base-16 digit. -/
def hexVal (c : Char) : Nat :=
  if '0' ≤ c && c ≤ '9' then c.toNat - '0'.toNat
  else if 'a' ≤ c && c ≤ 'f' then c.toNat - 'a'.toNat + 10
  else c.toNat - 'A'.toNat + 10

/-- Length of the optional sign accepted by `strtoull` after whitespace. -/
def signLenOf (cs : List Char) : Nat :=
  if cs.headD ' ' = '-' ∨ cs.headD ' ' = '+' then 1 else 0

/-- Does the optional sign negate the result? -/
def negOf (cs : List Char) : Bool := cs.headD ' ' == '-'

/-- Length of the optional `0x`/`0X` marker consumed by `strtoull` in base
16; it is consumed only when a hex digit follows it (otherwise `strtoull`
consumes just the `0` as a digit). -/
def hexPrefLen (cs : List Char) : Nat :=
  if cs.headD ' ' = '0' ∧ (cs.getD 1 ' ' = 'x' ∨ cs.getD 1 ' ' = 'X') ∧
      isHexDigitChar (cs.getD 2 ' ') = true then 2 else 0

/-- Embedding of `std::strtoull(str, &end, 16)`: returns the parsed value
(as a 64-bit unsigned quantity, saturating to `ULLONG_MAX` on overflow and
wrapping a leading minus sign) and the number of characters consumed, `0`
when no conversion was performed (`end == nptr`).  The view handed to it by
`parse_u64_hex` is not null-terminated; the embedding relies on the
character after the view (a `&` separator or the command string's
terminator) not being a hex digit, which holds for every value produced by
`param_value`. -/
def strtoullHex (cs : List Char) : Nat × Nat :=
  let wsLen := (cs.takeWhile (fun c => c.isWhitespace)).length
  let afterWs := cs.drop wsLen
  let afterSign := afterWs.drop (signLenOf afterWs)
  let afterPref := afterSign.drop (hexPrefLen afterSign)
  let digits := afterPref.takeWhile isHexDigitChar
  if digits.isEmpty then (0, 0)
  else
    let raw := digits.foldl (fun acc c => 16 * acc + hexVal c) 0
    let sat := if raw < 2 ^ 64 then raw else 2 ^ 64 - 1
    let value := if negOf afterWs then (2 ^ 64 - sat) % 2 ^ 64 else sat
    (value, wsLen + signLenOf afterWs + hexPrefLen afterSign + digits.length)

/-- Embedding of `parse_u64_hex` (flight_server.cpp:178-188): the parsed
value when `strtoull` consumed the whole view, the default otherwise.  (The
16-character length check present in an earlier revision is commented out
in the source.) -/
def parseU64Hex (cs : List Char) (dflt : Nat) : Nat :=
  if (strtoullHex cs).2 = cs.length then (strtoullHex cs).1 else dflt

/-- Embedding of `parse_txn_id` (flight_server.cpp:190-192): default 0. -/
def parseTxnId (cs : List Char) : Nat := parseU64Hex cs 0

/-- Modelled from the spec: the recognised parameter name `txn`
(`kParamTransactionID` is defined in a helper header that is not part of
the provided sources; spec section 4.3 names the parameter `txn`). -/
def kParamTransactionID : List Char := ['t', 'x', 'n']

/-- The transaction-id part of `session_params`
(flight_server.cpp:441-453): take the query-string suffix starting at the
first `?`, look up the `txn` parameter, and parse it; without a `?` or
without a `txn` parameter the session keeps `txn_id = 0`. -/
def sessionTxnId (uri : List Char) : Nat :=
  match uri.findIdx? (fun c => c == '?') with
  | none => 0
  | some idx =>
    match paramValue (uri.drop idx) kParamTransactionID with
    | none => 0
    | some v => parseTxnId v

/-- Embedding of `session_id_t::is_txn` (flight_server.cpp:204): a session
with transaction id 0 is non-transactional, and `sessions_t::lock` takes
the arena-only branch for it. -/
def isTxn (txnId : Nat) : Bool := txnId != 0

/-! ### Claim C6: unparseable `txn` values -/

/-- The command `read?txn=zzz`, whose `txn` value is not hex. -/
def uriBadTxn : List Char :=
  ['r', 'e', 'a', 'd', '?', 't', 'x', 'n', '=', 'z', 'z', 'z']

/-- C6 counterexample.  The claim says a request whose `txn` value is not a
parseable hex identifier fails with invalid-argument.  The code has no such
failure path: `strtoull` consumes nothing of `zzz`, `parse_u64_hex` falls
back to the default 0, and the request is executed as a non-transactional
session (`is_txn` is false, so `lock` takes the plain-arena branch). -/
theorem c6_unparseable_txn_becomes_zero :
    sessionTxnId uriBadTxn = 0 ∧ isTxn (sessionTxnId uriBadTxn) = false := by
  refine ⟨by decide, by decide⟩

/-- C6 as amended.  A `txn` parameter value that `strtoull` cannot parse is
silently replaced by the default transaction id 0 and the request is
executed as a non-transactional session; no invalid-argument error is
raised.  In particular any non-empty value none of whose characters is a
hex digit, whitespace or a sign parses to 0, and the full pipeline maps
`read?txn=zzz` to transaction id 0. -/
theorem c6_txn_param_amended :
    (∀ v : List Char, v ≠ [] →
      (∀ c ∈ v, isHexDigitChar c = false ∧ c.isWhitespace = false ∧ c ≠ '+' ∧ c ≠ '-') →
      parseTxnId v = 0 ∧ isTxn (parseTxnId v) = false) ∧
    sessionTxnId uriBadTxn = 0 := by
  refine ⟨?_, by decide⟩
  intro v hne hall
  cases v with
  | nil => exact absurd rfl hne
  | cons c rest =>
    obtain ⟨hhex, hws, hplus, hminus⟩ := hall c (List.mem_cons_self c rest)
    have hc0 : c ≠ '0' := by
      intro h
      rw [h] at hhex
      exact absurd hhex (by decide)
    have htw : (c :: rest).takeWhile (fun ch => ch.isWhitespace) = [] := by
      simp [List.takeWhile_cons, hws]
    have hsign : signLenOf (c :: rest) = 0 := by
      simp [signLenOf, hminus, hplus]
    have hpref : hexPrefLen (c :: rest) = 0 := by
      simp [hexPrefLen, hc0]
    have hdig : (c :: rest).takeWhile isHexDigitChar = [] := by
      simp [List.takeWhile_cons, hhex]
    have hstr : strtoullHex (c :: rest) = (0, 0) := by
      simp [strtoullHex, htw, hsign, hpref, hdig]
    constructor
    · simp [parseTxnId, parseU64Hex, hstr]
    · simp [isTxn, parseTxnId, parseU64Hex, hstr]

/-- Witness for C6: the amended statement applied to the concrete
unparseable value `zzz`. -/
theorem c6_txn_param_amended_witness :
    parseTxnId ['z', 'z', 'z'] = 0 ∧ isTxn (parseTxnId ['z', 'z', 'z']) = false :=
  c6_txn_param_amended.1 ['z', 'z', 'z'] (by decide) (by decide)

/-! ### Embedding of the Arrow interop helpers (`include/ustore/arrow.h`).
Pointers are `Option (List Nat)`: `none` is a NULL pointer, `some buf` a
pointer to a buffer whose cells are abstracted to `Nat`. -/

/-- Embedding of `ustore_doc_field_type_t` (the closed column type set). -/
inductive DocFieldType where
  | null | bool | uuid | i8 | i16 | i32 | i64
  | u8 | u16 | u32 | u64 | f16 | f32 | f64 | bin | str
  deriving DecidableEq, Repr

/-- Embedding of `ustore_doc_field_type_to_arrow_format` (arrow.h:85-113).
The enum is closed, so the C `default: return ""` branch is unreachable. -/
def ustoreDocFieldTypeToArrowFormat : DocFieldType → String
  | .null => "n"
  | .bool => "b"
  | .uuid => "w:16"
  | .i8 => "c"
  | .i16 => "s"
  | .i32 => "i"
  | .i64 => "l"
  | .u8 => "C"
  | .u16 => "S"
  | .u32 => "I"
  | .u64 => "L"
  | .f16 => "e"
  | .f32 => "f"
  | .f64 => "g"
  | .bin => "z"
  | .str => "u"

/-- The fields of `ArrowSchema` that the helpers fill. -/
structure ArrowSchemaM where
  format : String
  name : String
  flags : Int
  nChildren : Nat
  deriving DecidableEq, Repr

/-- The fields of `ArrowArray` that the helpers fill. -/
structure ArrowArrayM where
  length : Nat
  nullCount : Int
  offset : Nat
  nBuffers : Nat
  buffers : List (Option (List Nat))
  deriving DecidableEq, Repr

/-- Buffer count per column layout, from the `switch` in
`ustore_to_arrow_column` (arrow.h:227-245): fixed-width scalars and `uuid`
use 2 buffers, `binary`/`utf8` use 3, `null` uses 0. -/
def nBuffersFor : DocFieldType → Nat
  | .null => 0
  | .bin => 3
  | .str => 3
  | _ => 2

/-- Embedding of `ustore_to_arrow_column` (arrow.h:203-270).  The schema
flag value 2 is `ARROW_FLAG_NULLABLE`.  (For the `null` type the C writes
three buffer-pointer slots into a zero-length allocation; the embedding
records the written slots without modelling that overflow.) -/
def ustoreToArrowColumn (docsCount : Nat) (fieldName : String) (ft : DocFieldType)
    (validities offsets contents : Option (List Nat)) : ArrowSchemaM × ArrowArrayM :=
  ({ format := ustoreDocFieldTypeToArrowFormat ft,
     name := fieldName,
     flags := if validities.isSome then 2 else 0,
     nChildren := 0 },
   { length := docsCount,
     nullCount := if validities.isSome then -1 else 0,
     offset := 0,
     nBuffers := nBuffersFor ft,
     buffers := if nBuffersFor ft = 2 then [validities, contents]
                else [validities, offsets, contents] })

/-- Embedding of `ustore_to_arrow_schema` (arrow.h:148-196): the root node
of every response batch, a struct (`+s`) with `fields_count` children, no
validity bitmap and `null_count = 0`. -/
def ustoreToArrowSchemaRoot (docsCount fieldsCount : Nat) : ArrowSchemaM × ArrowArrayM :=
  ({ format := "+s", name := "", flags := 0, nChildren := fieldsCount },
   { length := docsCount, nullCount := 0, offset := 0, nBuffers := 1, buffers := [none] })

/-- Embedding of `ustore_to_arrow_list` (arrow.h:277-326): a `+l` node built
over `ustore_to_arrow_schema`, holding validity and offsets buffers, whose
single child column (`chunks`) has length `column_offsets[docs_count]` and
no validity of its own. -/
def ustoreToArrowList (docsCount : Nat) (fieldName : String) (ft : DocFieldType)
    (validities : Option (List Nat)) (offsetsBuf : List Nat)
    (contents : Option (List Nat)) :
    (ArrowSchemaM × ArrowArrayM) × (ArrowSchemaM × ArrowArrayM) :=
  let root := ustoreToArrowSchemaRoot docsCount 1
  let outerSchema := { root.1 with
                       name := fieldName,
                       flags := if validities.isSome then 2 else 0,
                       format := "+l" }
  let outerArray := { root.2 with
                      nullCount := if validities.isSome then -1 else 0,
                      nBuffers := 2,
                      buffers := [validities, some offsetsBuf] }
  ((outerSchema, outerArray),
   ustoreToArrowColumn (offsetsBuf.getD docsCount 0) "chunks" ft none none contents)

/-! ### Claim C7: the format-string table -/

/-- C7.  The column-type-to-format mapping is exactly the claimed table, the
root struct schema uses `+s`, and a list column uses `+l`. -/
theorem c7_format_table :
    ustoreDocFieldTypeToArrowFormat .null = "n" ∧
    ustoreDocFieldTypeToArrowFormat .bool = "b" ∧
    ustoreDocFieldTypeToArrowFormat .i8 = "c" ∧
    ustoreDocFieldTypeToArrowFormat .i16 = "s" ∧
    ustoreDocFieldTypeToArrowFormat .i32 = "i" ∧
    ustoreDocFieldTypeToArrowFormat .i64 = "l" ∧
    ustoreDocFieldTypeToArrowFormat .u8 = "C" ∧
    ustoreDocFieldTypeToArrowFormat .u16 = "S" ∧
    ustoreDocFieldTypeToArrowFormat .u32 = "I" ∧
    ustoreDocFieldTypeToArrowFormat .u64 = "L" ∧
    ustoreDocFieldTypeToArrowFormat .f16 = "e" ∧
    ustoreDocFieldTypeToArrowFormat .f32 = "f" ∧
    ustoreDocFieldTypeToArrowFormat .f64 = "g" ∧
    ustoreDocFieldTypeToArrowFormat .bin = "z" ∧
    ustoreDocFieldTypeToArrowFormat .str = "u" ∧
    ustoreDocFieldTypeToArrowFormat .uuid = "w:16" ∧
    (∀ d f : Nat, (ustoreToArrowSchemaRoot d f).1.format = "+s") ∧
    (∀ (d : Nat) (n : String) (ft : DocFieldType) (v : Option (List Nat))
        (ob : List Nat) (c : Option (List Nat)),
      (ustoreToArrowList d n ft v ob c).1.1.format = "+l") :=
  ⟨rfl, rfl, rfl, rfl, rfl, rfl, rfl, rfl, rfl, rfl, rfl, rfl, rfl, rfl, rfl, rfl,
   fun _ _ => rfl, fun _ _ _ _ _ _ => rfl⟩

/-! ### Claim C8: validity pointer versus nullable flag and null count -/

/-- C8.  For both `ustore_to_arrow_column` and `ustore_to_arrow_list`: a
NULL validity pointer clears the schema's nullable flag and sets the
array's `null_count` to 0; a non-NULL validity pointer sets the nullable
flag (`ARROW_FLAG_NULLABLE` = 2) and marks `null_count` unknown (-1). -/
theorem c8_validity_drives_nullability :
    (∀ (d : Nat) (n : String) (ft : DocFieldType) (o c : Option (List Nat)),
      (ustoreToArrowColumn d n ft none o c).1.flags = 0 ∧
      (ustoreToArrowColumn d n ft none o c).2.nullCount = 0) ∧
    (∀ (d : Nat) (n : String) (ft : DocFieldType) (vb : List Nat)
        (o c : Option (List Nat)),
      (ustoreToArrowColumn d n ft (some vb) o c).1.flags = 2 ∧
      (ustoreToArrowColumn d n ft (some vb) o c).2.nullCount = -1) ∧
    (∀ (d : Nat) (n : String) (ft : DocFieldType) (ob : List Nat)
        (c : Option (List Nat)),
      (ustoreToArrowList d n ft none ob c).1.1.flags = 0 ∧
      (ustoreToArrowList d n ft none ob c).1.2.nullCount = 0) ∧
    (∀ (d : Nat) (n : String) (ft : DocFieldType) (vb ob : List Nat)
        (c : Option (List Nat)),
      (ustoreToArrowList d n ft (some vb) ob c).1.1.flags = 2 ∧
      (ustoreToArrowList d n ft (some vb) ob c).1.2.nullCount = -1) :=
  ⟨fun _ _ _ _ _ => ⟨rfl, rfl⟩, fun _ _ _ _ _ _ => ⟨rfl, rfl⟩,
   fun _ _ _ _ _ => ⟨rfl, rfl⟩, fun _ _ _ _ _ _ => ⟨rfl, rfl⟩⟩

/-! ### Claim C9: the scan response batch -/

/-- The scan branch of `UStoreService::DoExchange`
(flight_server.cpp:1035-1106): a two-field root, a `keys` column and an
`offsets` column, each of field type `ustore_doc_field<ustore_key_t>` (i64)
with no validity bitmap, and — as the source passes it — *every* length set
to `found_offsets[tasks_count]`, the total number of result keys.  The
column name constant `kArgKeys` is modelled from the spec (section 6 names
the column `keys`); the `"offsets"` name is a string literal in the
source. -/
def scanResponse (tasksCount : Nat) (foundOffsets foundKeys : List Nat) :
    (ArrowSchemaM × ArrowArrayM) × List (ArrowSchemaM × ArrowArrayM) :=
  let resultLength := foundOffsets.getD tasksCount 0
  (ustoreToArrowSchemaRoot resultLength 2,
   [ustoreToArrowColumn resultLength "keys" .i64 none none (some foundKeys),
    ustoreToArrowColumn resultLength "offsets" .i64 none none (some foundOffsets)])

/-- C9.  For a scan over `N = 1` input row whose engine call returns 3 keys
(offsets buffer `[0, 3]`, keys buffer `[10, 20, 30]`), the response indeed
has exactly the two columns `keys` and `offsets`, both of Arrow type `l`
(i64) — but the `offsets` column is declared with length
`found_offsets[N] = 3`, the total key count, not the claimed `N + 1 = 2`
(the actual extent of the engine's prefix-sum buffer). -/
theorem c9_offsets_column_length :
    (scanResponse 1 [0, 3] [10, 20, 30]).2.map
        (fun col => (col.1.name, col.1.format, col.2.length)) =
      [("keys", "l", 3), ("offsets", "l", 3)] ∧
    (scanResponse 1 [0, 3] [10, 20, 30]).1.2.length = 3 ∧
    ¬(3 = 1 + 1) := by
  refine ⟨by decide, by decide, by decide⟩
